import Mathlib

/-!
Shallow embedding of the sandboxed code-execution runners
(`python_runner.py`, `go_runner.py`, `cpp_runner.py`).

External effects (subprocess invocations, temporary-directory creation and
deletion, file writes) are modelled by an explicit per-call environment that
fixes the outcome of each external interaction, and each runner returns,
besides its result record, the trace of external events it performed, in
order.  Machine integers do not overflow in this code (exit codes are small),
so exit codes are plain `Int`.
-/

namespace DeepBlue

/-- Outcome of one `subprocess.run` invocation, as distinguished by the
`try/except` ladder in `_execute_command` (python_runner.py lines 19-55):
normal completion, `TimeoutExpired` (with the partial stdout/stderr bytes,
`none` when the exception carries no output), `FileNotFoundError` with the
missing file name, or any other exception with its message. -/
inductive ProcBehavior where
  | completes (returncode : Int) (stdout stderr : String)
  | timesOut (pstdout pstderr : Option String)
  | notFound (filename : String)
  | raises (msg : String)
deriving Repr, DecidableEq

/-- The fields of `subprocess.CompletedProcess` used by the runners. -/
structure CompletedProcess where
  returncode : Int
  stdout : String
  stderr : String
deriving Repr, DecidableEq

/-- `e.stdout.decode(...) if e.stdout else dflt`: a missing or empty value is
replaced by the default (Python truthiness on `bytes`). -/
def falsyOr (o : Option String) (dflt : String) : String :=
  match o with
  | none => dflt
  | some s => if s = "" then dflt else s

/-- `_execute_command` from python_runner.py: returns the completed process
and a timed-out flag, converting `TimeoutExpired`, `FileNotFoundError` and
any other exception into sentinel results instead of raising. -/
def execute_command (beh : ProcBehavior) : CompletedProcess × Bool :=
  match beh with
  | .completes rc out err => (⟨rc, out, err⟩, false)
  | .timesOut pout perr =>
      (⟨-1, falsyOr pout "", falsyOr perr "Execution timed out."⟩, true)
  | .notFound fn => (⟨-1, "", "Command not found: " ++ fn⟩, false)
  | .raises msg =>
      (⟨-1, "", "An unexpected error occurred running command: " ++ msg⟩, false)

/-- `_execute_command_for_go` from go_runner.py lines 14-56; its body is a
verbatim copy of `_execute_command`, so its model is the same function. -/
def execute_command_for_go (beh : ProcBehavior) : CompletedProcess × Bool :=
  execute_command beh

/-- One observable external event performed by a runner. -/
inductive Event where
  | mkdtemp (dir : String)
  | fileWrite (path : String)
  | execCmd (args : List String) (timeoutSeconds : Option Nat)
  | rmtree (dir : String) (ok : Bool)
deriving Repr, DecidableEq

/-- Where, if anywhere, the staging code inside the runner's `try` block
raises: at `tempfile.mkdtemp` (no directory exists yet) or at one of the
source/Dockerfile writes (the directory already exists). -/
inductive SetupOutcome where
  | ok
  | mkdtempRaises (msg : String)
  | writeRaises (msg : String)
deriving Repr, DecidableEq

/-- `true` when the temporary directory was created before any failure. -/
def SetupOutcome.madeDir : SetupOutcome → Bool
  | .mkdtempRaises _ => false
  | _ => true

/-- The result dictionary shared by `run_python_code` and `run_go_code`. -/
structure RunResult where
  stdout : String
  stderr : String
  exit_code : Int
  timed_out : Bool
  error : Option String
deriving Repr, DecidableEq

/-- Per-call environment for `run_python_code`: the uuid, the name `mkdtemp`
returns, whether staging raises, the behavior of the build / run / `rmi`
subprocesses, and whether `shutil.rmtree` raises (with its message). -/
structure PyEnv where
  execId : String
  tempDirName : String
  setup : SetupOutcome
  buildBehavior : ProcBehavior
  runBehavior : ProcBehavior
  rmiBehavior : ProcBehavior
  rmtreeFails : Option String
deriving Repr, DecidableEq

/-- Arguments of `run_python_code`; `requirements=None` is modelled as `[]`
(both are falsy in the `if requirements:` test). -/
structure PyArgs where
  code : String
  requirements : List String
  timeout : Nat
  python_image : String
  cpu_limit : String
  memory_limit : String
deriving Repr, DecidableEq

/-- `docker build -t python-exec-<uuid> -f <tmp>/Dockerfile <tmp>` -/
def py_build_command (env : PyEnv) : List String :=
  ["docker", "build", "-t", "python-exec-" ++ env.execId,
   "-f", env.tempDirName ++ "/Dockerfile", env.tempDirName]

/-- `docker run --rm --network=none --cpus=<c> --memory=<m> python-exec-<uuid>` -/
def py_run_command (a : PyArgs) (env : PyEnv) : List String :=
  ["docker", "run", "--rm", "--network=none",
   "--cpus=" ++ a.cpu_limit, "--memory=" ++ a.memory_limit,
   "python-exec-" ++ env.execId]

/-- The `finally` block of `run_python_code`: best-effort `docker rmi` when
the image was built, then guarded `shutil.rmtree` whose failure is only
printed as a warning (the result is unaffected either way). -/
def py_finally_events (env : PyEnv) (imageBuilt : Bool) : List Event :=
  (if imageBuilt then
    [Event.execCmd ["docker", "rmi", "-f", "python-exec-" ++ env.execId] (some 30)]
  else []) ++
  [Event.rmtree env.tempDirName env.rmtreeFails.isNone]

/-- The staging writes of `run_python_code`: `main.py`, `requirements.txt`
only when the requirements list is truthy, then the `Dockerfile`. -/
def py_stage_events (a : PyArgs) (env : PyEnv) : List Event :=
  [Event.mkdtemp env.tempDirName,
   Event.fileWrite (env.tempDirName ++ "/main.py")] ++
  (if a.requirements.isEmpty then []
   else [Event.fileWrite (env.tempDirName ++ "/requirements.txt")]) ++
  [Event.fileWrite (env.tempDirName ++ "/Dockerfile")]

/-- `run_python_code` (python_runner.py lines 58-179): stage the workspace,
build a uniquely tagged image with a fixed 300 s ceiling, run it under the
caller's timeout with network isolation and resource caps, normalize a
timed-out exit code, and clean up in `finally`. -/
def run_python_code (a : PyArgs) (env : PyEnv) : RunResult × List Event :=
  match env.setup with
  | .mkdtempRaises msg =>
      ({ stdout := "", stderr := msg, exit_code := -1, timed_out := false,
         error := some ("An unexpected error occurred in run_python_code: " ++ msg) },
       [])
  | .writeRaises msg =>
      ({ stdout := "", stderr := msg, exit_code := -1, timed_out := false,
         error := some ("An unexpected error occurred in run_python_code: " ++ msg) },
       [Event.mkdtemp env.tempDirName] ++ py_finally_events env false)
  | .ok =>
      let bres := execute_command env.buildBehavior
      let stageAndBuild := py_stage_events a env ++
        [Event.execCmd (py_build_command env) (some 300)]
      if bres.2 then
        ({ stdout := "", stderr := bres.1.stderr, exit_code := -1,
           timed_out := true, error := some "Docker image build timed out." },
         stageAndBuild ++ py_finally_events env false)
      else if bres.1.returncode ≠ 0 then
        ({ stdout := "",
           stderr := "Build STDOUT:\n" ++ bres.1.stdout ++ "\n\nBuild STDERR:\n" ++
             bres.1.stderr,
           exit_code := bres.1.returncode, timed_out := false,
           error := some "Docker image build failed." },
         stageAndBuild ++ py_finally_events env false)
      else
        let rres := execute_command env.runBehavior
        let base : RunResult :=
          { stdout := rres.1.stdout, stderr := rres.1.stderr,
            exit_code := rres.1.returncode, timed_out := rres.2, error := none }
        let final : RunResult :=
          if rres.2 then
            { base with
              stderr := (base.stderr ++ "\nExecution timed out after " ++
                toString a.timeout ++ " seconds.").trimLeft,
              exit_code :=
                if base.exit_code = 0 ∨ base.exit_code = -1 then 137
                else base.exit_code }
          else base
        (final,
         stageAndBuild ++ [Event.execCmd (py_run_command a env) (some a.timeout)] ++
           py_finally_events env true)

/-- Per-call environment for `run_go_code`, with the same shape as `PyEnv`. -/
structure GoEnv where
  execId : String
  tempDirName : String
  setup : SetupOutcome
  buildBehavior : ProcBehavior
  runBehavior : ProcBehavior
  rmiBehavior : ProcBehavior
  rmtreeFails : Option String
deriving Repr, DecidableEq

/-- Arguments of `run_go_code`. -/
structure GoArgs where
  code : String
  timeout : Nat
  go_image : String
  cpu_limit : String
  memory_limit : String
deriving Repr, DecidableEq

/-- `docker build -t go-exec-<uuid> -f <tmp>/Dockerfile <tmp>` -/
def go_build_command (env : GoEnv) : List String :=
  ["docker", "build", "-t", "go-exec-" ++ env.execId,
   "-f", env.tempDirName ++ "/Dockerfile", env.tempDirName]

/-- `docker run --rm --network=none --cpus=<c> --memory=<m> go-exec-<uuid>` -/
def go_run_command (a : GoArgs) (env : GoEnv) : List String :=
  ["docker", "run", "--rm", "--network=none",
   "--cpus=" ++ a.cpu_limit, "--memory=" ++ a.memory_limit,
   "go-exec-" ++ env.execId]

/-- The `finally` block of `run_go_code`: best-effort `docker rmi`, then
guarded `shutil.rmtree` whose failure is only printed as a warning. -/
def go_finally_events (env : GoEnv) (imageBuilt : Bool) : List Event :=
  (if imageBuilt then
    [Event.execCmd ["docker", "rmi", "-f", "go-exec-" ++ env.execId] (some 30)]
  else []) ++
  [Event.rmtree env.tempDirName env.rmtreeFails.isNone]

/-- The staging writes of `run_go_code`: `main.go`, then the `Dockerfile`. -/
def go_stage_events (env : GoEnv) : List Event :=
  [Event.mkdtemp env.tempDirName,
   Event.fileWrite (env.tempDirName ++ "/main.go"),
   Event.fileWrite (env.tempDirName ++ "/Dockerfile")]

/-- `run_go_code` (go_runner.py lines 58-189): same orchestration as
`run_python_code` with Go-specific strings, no dependency manifest, the
same fixed 300 s build ceiling and the same timeout normalization. -/
def run_go_code (a : GoArgs) (env : GoEnv) : RunResult × List Event :=
  match env.setup with
  | .mkdtempRaises msg =>
      ({ stdout := "", stderr := msg, exit_code := -1, timed_out := false,
         error := some ("An unexpected error occurred in run_go_code: " ++ msg) },
       [])
  | .writeRaises msg =>
      ({ stdout := "", stderr := msg, exit_code := -1, timed_out := false,
         error := some ("An unexpected error occurred in run_go_code: " ++ msg) },
       [Event.mkdtemp env.tempDirName] ++ go_finally_events env false)
  | .ok =>
      let bres := execute_command_for_go env.buildBehavior
      let stageAndBuild := go_stage_events env ++
        [Event.execCmd (go_build_command env) (some 300)]
      if bres.2 then
        ({ stdout := "", stderr := bres.1.stderr, exit_code := -1,
           timed_out := true, error := some "Docker image build for Go timed out." },
         stageAndBuild ++ go_finally_events env false)
      else if bres.1.returncode ≠ 0 then
        ({ stdout := "",
           stderr := "Build STDOUT:\n" ++ bres.1.stdout ++ "\n\nBuild STDERR:\n" ++
             bres.1.stderr,
           exit_code := bres.1.returncode, timed_out := false,
           error := some "Docker image build for Go failed." },
         stageAndBuild ++ go_finally_events env false)
      else
        let rres := execute_command_for_go env.runBehavior
        let base : RunResult :=
          { stdout := rres.1.stdout, stderr := rres.1.stderr,
            exit_code := rres.1.returncode, timed_out := rres.2, error := none }
        let final : RunResult :=
          if rres.2 then
            { base with
              stderr := (base.stderr ++ "\nExecution timed out after " ++
                toString a.timeout ++ " seconds.").trimLeft,
              exit_code :=
                if base.exit_code = 0 ∨ base.exit_code = -1 then 137
                else base.exit_code }
          else base
        (final,
         stageAndBuild ++ [Event.execCmd (go_run_command a env) (some a.timeout)] ++
           go_finally_events env true)

/-- `ubuntu:22.04`, the shared base image of the C++ runner. -/
def DOCKER_IMAGE : String := "ubuntu:22.04"

/-- Outcome of one direct `subprocess.run` call inside `run_cpp_code`, as
distinguished by its `try/except` ladders (cpp_runner.py lines 100-131 and
152-179): completion, `TimeoutExpired`, `FileNotFoundError` (docker binary
missing), or any other exception with its type name and message. -/
inductive CppProcOutcome where
  | completes (rc : Int) (out err : String)
  | timesOut
  | dockerNotFound
  | raises (ename emsg : String)
deriving Repr, DecidableEq

/-- Per-call environment for `run_cpp_code`. -/
structure CppEnv where
  tempDirName : String
  setup : SetupOutcome
  compileBehavior : CppProcOutcome
  execBehavior : CppProcOutcome
  rmtreeFails : Option String
deriving Repr, DecidableEq

/-- Arguments of `run_cpp_code`. -/
structure CppArgs where
  cpp_code : String
  stdin_data : Option String
  compile_timeout : Nat
  exec_timeout : Nat
  compiler : String
deriving Repr, DecidableEq

/-- The result dictionary of `run_cpp_code` (cpp_runner.py lines 40-50). -/
structure CppResults where
  compilation_stdout : String
  compilation_stderr : String
  compilation_exit_code : Option Int
  timed_out_compilation : Bool
  execution_stdout : Option String
  execution_stderr : Option String
  execution_exit_code : Option Int
  timed_out_execution : Bool
  compiler_used : String
deriving Repr, DecidableEq

/-- The initial `results` dictionary. -/
def initCppResults : CppResults :=
  { compilation_stdout := "", compilation_stderr := "",
    compilation_exit_code := none, timed_out_compilation := false,
    execution_stdout := none, execution_stderr := none,
    execution_exit_code := none, timed_out_execution := false,
    compiler_used := "none" }

/-- The in-container shell command: silenced toolchain install, then the
chosen compiler on the staged source. -/
def cpp_shell_command (compiler_exe : String) : String :=
  "apt-get update > /dev/null 2>&1 && apt-get install -y g++ clang > /dev/null 2>&1; " ++
  compiler_exe ++ " -std=c++17 -O2 temp_code.cpp -o temp_exec"

/-- `docker run --rm --network=none -v <tmp>:/sandbox -w /sandbox ubuntu:22.04
sh -c <shell command>` -/
def cpp_compile_command (a : CppArgs) (env : CppEnv) : List String :=
  ["docker", "run", "--rm", "--network=none",
   "-v", env.tempDirName ++ ":/sandbox", "-w", "/sandbox", DOCKER_IMAGE,
   "sh", "-c",
   cpp_shell_command (if a.compiler = "clang++" then "clang++" else "g++")]

/-- `docker run --rm --network=none -i -v <tmp>:/sandbox -w /sandbox
ubuntu:22.04 ./temp_exec` -/
def cpp_execute_command (env : CppEnv) : List String :=
  ["docker", "run", "--rm", "--network=none", "-i",
   "-v", env.tempDirName ++ ":/sandbox", "-w", "/sandbox", DOCKER_IMAGE,
   "./temp_exec"]

deriving instance DecidableEq for Except

/-- The `finally` block of `run_cpp_code` (lines 184-188), reached only when
the temporary directory exists.  Its `shutil.rmtree` is NOT wrapped in a
`try/except`, so a deletion failure raises out of the `finally` block,
replacing whatever the `try` block was returning or raising. -/
def cpp_finally (env : CppEnv) (r : Except String CppResults) (tr : List Event) :
    Except String CppResults × List Event :=
  match env.rmtreeFails with
  | none => (r, tr ++ [Event.rmtree env.tempDirName true])
  | some m => (Except.error m, tr ++ [Event.rmtree env.tempDirName false])

/-- `run_cpp_code` (cpp_runner.py lines 12-188): validate the compiler choice
before touching the filesystem, stage the source, compile inside the shared
base image, execute only when compilation exited 0, and delete the workspace
in `finally`.  An `Except.error` value models an exception escaping to the
caller (the function has no `except` clause of its own). -/
def run_cpp_code (a : CppArgs) (env : CppEnv) :
    Except String CppResults × List Event :=
  if a.compiler ∉ ["g++", "clang++"] then
    (Except.ok { initCppResults with
        compilation_stderr := "Unsupported compiler: \x27" ++ a.compiler ++
          "\x27. Supported compilers are \x27g++\x27 and \x27clang++\x27.",
        compilation_exit_code := some (-100) },
     [])
  else
    let r0 := { initCppResults with compiler_used := a.compiler }
    match env.setup with
    | .mkdtempRaises msg => (Except.error msg, [])
    | .writeRaises msg =>
        cpp_finally env (Except.error msg) [Event.mkdtemp env.tempDirName]
    | .ok =>
      let tr0 := [Event.mkdtemp env.tempDirName,
                  Event.fileWrite (env.tempDirName ++ "/temp_code.cpp"),
                  Event.execCmd (cpp_compile_command a env) (some a.compile_timeout)]
      match env.compileBehavior with
      | .completes rc out err =>
          let r1 := { r0 with
            compilation_stdout := out,
            compilation_stderr := err,
            compilation_exit_code := some rc }
          if rc ≠ 0 then cpp_finally env (Except.ok r1) tr0
          else
            let tr1 := tr0 ++
              [Event.execCmd (cpp_execute_command env) (some a.exec_timeout)]
            match env.execBehavior with
            | .completes erc eout eerr =>
                cpp_finally env (Except.ok { r1 with
                  execution_stdout := some eout,
                  execution_stderr := some eerr,
                  execution_exit_code := some erc }) tr1
            | .timesOut =>
                cpp_finally env (Except.ok { r1 with
                  timed_out_execution := true,
                  execution_stderr := some ("Execution timed out after " ++
                    toString a.exec_timeout ++ " seconds."),
                  execution_exit_code := some (-1) }) tr1
            | .dockerNotFound =>
                cpp_finally env (Except.ok { r1 with
                  execution_stderr :=
                    some "Error: Docker command not found for execution (unexpected).",
                  execution_exit_code := some (-1) }) tr1
            | .raises en em =>
                cpp_finally env (Except.ok { r1 with
                  execution_stderr := some (en ++ " - " ++ em),
                  execution_exit_code := some (-1) }) tr1
      | .timesOut =>
          cpp_finally env (Except.ok { r0 with
            timed_out_compilation := true,
            compilation_stderr := "Compilation timed out after " ++
              toString a.compile_timeout ++ " seconds.",
            compilation_exit_code := some (-1) }) tr0
      | .dockerNotFound =>
          cpp_finally env (Except.ok { r0 with
            compilation_stderr :=
              "Error: Docker command not found. Please ensure Docker is installed and in PATH.",
            compilation_exit_code := some (-1) }) tr0
      | .raises en em =>
          cpp_finally env (Except.ok { r0 with
            compilation_stderr := en ++ " - " ++ em,
            compilation_exit_code := some (-1) }) tr0

/-! ### Derived predicates and observation helpers -/

/-- The build phase of `run_python_code` ran and exited 0 (staging did not
raise, the build subprocess neither timed out nor failed). -/
abbrev pyBuildSucceeds (env : PyEnv) : Prop :=
  env.setup = SetupOutcome.ok ∧
  (execute_command env.buildBehavior).2 = false ∧
  (execute_command env.buildBehavior).1.returncode = 0

/-- The build phase of `run_go_code` ran and exited 0. -/
abbrev goBuildSucceeds (env : GoEnv) : Prop :=
  env.setup = SetupOutcome.ok ∧
  (execute_command_for_go env.buildBehavior).2 = false ∧
  (execute_command_for_go env.buildBehavior).1.returncode = 0

/-- The compilation subprocess of `run_cpp_code` did not complete with exit
code 0: it exited nonzero, timed out, or raised. -/
abbrev cppCompileFailed (o : CppProcOutcome) : Prop :=
  match o with
  | .completes rc _ _ => rc ≠ 0
  | _ => True

/-- The compilation subprocess of `run_cpp_code` completed with exit code 0. -/
abbrev cppCompileSucceeded (o : CppProcOutcome) : Prop :=
  match o with
  | .completes rc _ _ => rc = 0
  | _ => False

/-- Recognizes sandbox-backend invocations in a trace. -/
def isExecEvent : Event → Bool
  | .execCmd _ _ => true
  | _ => false

/-- The execution-phase fields of a C++ result, `none` when the call raised. -/
def execPhaseFields (e : Except String CppResults) :
    Option (Option String × Option String × Option Int) :=
  match e with
  | .ok r => some (r.execution_stdout, r.execution_stderr, r.execution_exit_code)
  | .error _ => none

/-- The execution-timeout flag and exit code of a C++ result, `none` when
the call raised. -/
def execTimeoutFields (e : Except String CppResults) : Option (Bool × Option Int) :=
  match e with
  | .ok r => some (r.timed_out_execution, r.execution_exit_code)
  | .error _ => none

/-! ### Concrete fixtures for closed evaluations -/

/-- Typical Python-runner arguments. -/
def pyArgs0 : PyArgs := ⟨"x = 1", [], 60, "python:3.10-slim", "1.0", "256m"⟩

/-- Python-runner arguments with empty source code. -/
def pyArgsEmpty : PyArgs := ⟨"", [], 60, "python:3.10-slim", "1.0", "256m"⟩

/-- Environment where everything succeeds. -/
def pyEnvOk : PyEnv :=
  ⟨"aaa", "tmpP", .ok, .completes 0 "" "", .completes 0 "1\n" "",
   .completes 0 "" "", none⟩

/-- Environment where the user program exits nonzero. -/
def pyEnvRunFail : PyEnv :=
  ⟨"aaa", "tmpP", .ok, .completes 0 "" "", .completes 1 "" "Traceback",
   .completes 0 "" "", none⟩

/-- Environment where the run phase times out. -/
def pyEnvRunTimeout : PyEnv :=
  ⟨"aaa", "tmpP", .ok, .completes 0 "" "", .timesOut (some "part") none,
   .completes 0 "" "", none⟩

/-- Typical Go-runner arguments. -/
def goArgs0 : GoArgs := ⟨"package main", 60, "golang:1.21-alpine", "1.0", "256m"⟩

/-- Go-runner arguments with empty source code. -/
def goArgsEmpty : GoArgs := ⟨"", 60, "golang:1.21-alpine", "1.0", "256m"⟩

/-- Environment where everything succeeds. -/
def goEnvOk : GoEnv :=
  ⟨"bbb", "tmpG", .ok, .completes 0 "" "", .completes 0 "go\n" "",
   .completes 0 "" "", none⟩

/-- Environment where the user program exits nonzero. -/
def goEnvRunFail : GoEnv :=
  ⟨"bbb", "tmpG", .ok, .completes 0 "" "", .completes 2 "" "panic",
   .completes 0 "" "", none⟩

/-- Environment where the run phase times out. -/
def goEnvRunTimeout : GoEnv :=
  ⟨"bbb", "tmpG", .ok, .completes 0 "" "", .timesOut none none,
   .completes 0 "" "", none⟩

/-- Typical C++-runner arguments (valid compiler). -/
def cppArgs0 : CppArgs := ⟨"int main()", none, 10, 5, "g++"⟩

/-- C++-runner arguments with an unsupported compiler value. -/
def cppArgsBogus : CppArgs := ⟨"int main()", none, 10, 5, "bogus"⟩

/-- C++-runner arguments with empty source code. -/
def cppArgsEmpty : CppArgs := ⟨"", none, 10, 5, "g++"⟩

/-- Environment where compilation and execution succeed. -/
def cppEnvOk : CppEnv :=
  ⟨"tmpC", .ok, .completes 0 "" "", .completes 0 "hi" "", none⟩

/-- Environment where compilation exits nonzero. -/
def cppEnvCompileFail : CppEnv :=
  ⟨"tmpC", .ok, .completes 1 "" "error: expected", .completes 0 "" "", none⟩

/-- Environment where execution times out. -/
def cppEnvExecTimeout : CppEnv :=
  ⟨"tmpC", .ok, .completes 0 "" "", .timesOut, none⟩

/-- Environment where workspace deletion fails in the `finally` block. -/
def cppEnvRmtreeFail : CppEnv :=
  ⟨"tmpC", .ok, .completes 0 "" "", .completes 0 "ok" "", some "disk full"⟩

/-! ### Trace lemmas -/

theorem py_trace_rmtree (a : PyArgs) (env : PyEnv)
    (h : env.setup.madeDir = true) :
    Event.rmtree env.tempDirName env.rmtreeFails.isNone ∈ (run_python_code a env).2 := by
  obtain ⟨id, dir, setup, bb, rb, rmib, rmf⟩ := env
  cases setup with
  | mkdtempRaises m => simp [SetupOutcome.madeDir] at h
  | writeRaises m => simp [run_python_code, py_finally_events]
  | ok =>
    rcases hb : execute_command bb with ⟨p, tb⟩
    cases tb with
    | true => simp [run_python_code, hb, py_finally_events]
    | false =>
      by_cases hrc : p.returncode = 0 <;>
        simp [run_python_code, hb, hrc, py_finally_events]

theorem py_result_ignores_rmtree (a : PyArgs) (env : PyEnv) (o : Option String) :
    (run_python_code a { env with rmtreeFails := o }).1 =
      (run_python_code a env).1 := by
  obtain ⟨id, dir, setup, bb, rb, rmib, rmf⟩ := env
  cases setup with
  | mkdtempRaises m => rfl
  | writeRaises m => rfl
  | ok =>
    rcases hb : execute_command bb with ⟨p, tb⟩
    cases tb with
    | true => simp [run_python_code, hb]
    | false =>
      by_cases hrc : p.returncode = 0 <;> simp [run_python_code, hb, hrc]

theorem go_trace_rmtree (a : GoArgs) (env : GoEnv)
    (h : env.setup.madeDir = true) :
    Event.rmtree env.tempDirName env.rmtreeFails.isNone ∈ (run_go_code a env).2 := by
  obtain ⟨id, dir, setup, bb, rb, rmib, rmf⟩ := env
  cases setup with
  | mkdtempRaises m => simp [SetupOutcome.madeDir] at h
  | writeRaises m => simp [run_go_code, go_finally_events]
  | ok =>
    rcases hb : execute_command_for_go bb with ⟨p, tb⟩
    cases tb with
    | true => simp [run_go_code, hb, go_finally_events]
    | false =>
      by_cases hrc : p.returncode = 0 <;>
        simp [run_go_code, hb, hrc, go_finally_events]

theorem go_result_ignores_rmtree (a : GoArgs) (env : GoEnv) (o : Option String) :
    (run_go_code a { env with rmtreeFails := o }).1 = (run_go_code a env).1 := by
  obtain ⟨id, dir, setup, bb, rb, rmib, rmf⟩ := env
  cases setup with
  | mkdtempRaises m => rfl
  | writeRaises m => rfl
  | ok =>
    rcases hb : execute_command_for_go bb with ⟨p, tb⟩
    cases tb with
    | true => simp [run_go_code, hb]
    | false =>
      by_cases hrc : p.returncode = 0 <;> simp [run_go_code, hb, hrc]

theorem cpp_trace_rmtree (a : CppArgs) (env : CppEnv)
    (hc : a.compiler ∈ (["g++", "clang++"] : List String))
    (h : env.setup.madeDir = true) :
    Event.rmtree env.tempDirName env.rmtreeFails.isNone ∈ (run_cpp_code a env).2 := by
  obtain ⟨dir, setup, cb, eb, rmf⟩ := env
  have hg : a.compiler = "g++" ∨ a.compiler = "clang++" := by simpa using hc
  cases setup with
  | mkdtempRaises m => simp [SetupOutcome.madeDir] at h
  | writeRaises m =>
    rcases hg with hg | hg <;> cases rmf <;>
      simp [run_cpp_code, hg, cpp_finally]
  | ok =>
    cases cb with
    | completes rc out err =>
      by_cases hrc : rc = 0
      · rcases hg with hg | hg <;> cases eb <;> cases rmf <;>
          simp [run_cpp_code, hg, hrc, cpp_finally]
      · rcases hg with hg | hg <;> cases rmf <;>
          simp [run_cpp_code, hg, hrc, cpp_finally]
    | timesOut =>
      rcases hg with hg | hg <;> cases rmf <;>
        simp [run_cpp_code, hg, cpp_finally]
    | dockerNotFound =>
      rcases hg with hg | hg <;> cases rmf <;>
        simp [run_cpp_code, hg, cpp_finally]
    | raises en em =>
      rcases hg with hg | hg <;> cases rmf <;>
        simp [run_cpp_code, hg, cpp_finally]

theorem cpp_rmtree_failure_raises (a : CppArgs) (env : CppEnv) (m : String)
    (hc : a.compiler ∈ (["g++", "clang++"] : List String))
    (h : env.setup.madeDir = true)
    (hm : env.rmtreeFails = some m) :
    (run_cpp_code a env).1 = Except.error m := by
  obtain ⟨dir, setup, cb, eb, rmf⟩ := env
  have hg : a.compiler = "g++" ∨ a.compiler = "clang++" := by simpa using hc
  cases rmf with
  | none => simp at hm
  | some m2 =>
    have hm2 : m2 = m := by simpa using hm
    subst hm2
    cases setup with
    | mkdtempRaises m3 => simp [SetupOutcome.madeDir] at h
    | writeRaises m3 =>
      rcases hg with hg | hg <;> simp [run_cpp_code, hg, cpp_finally]
    | ok =>
      cases cb with
      | completes rc out err =>
        by_cases hrc : rc = 0
        · rcases hg with hg | hg <;> cases eb <;>
            simp [run_cpp_code, hg, hrc, cpp_finally]
        · rcases hg with hg | hg <;> simp [run_cpp_code, hg, hrc, cpp_finally]
      | timesOut =>
        rcases hg with hg | hg <;> simp [run_cpp_code, hg, cpp_finally]
      | dockerNotFound =>
        rcases hg with hg | hg <;> simp [run_cpp_code, hg, cpp_finally]
      | raises en em =>
        rcases hg with hg | hg <;> simp [run_cpp_code, hg, cpp_finally]

theorem py_error_none_iff (a : PyArgs) (env : PyEnv) :
    (run_python_code a env).1.error = none ↔ pyBuildSucceeds env := by
  obtain ⟨id, dir, setup, bb, rb, rmib, rmf⟩ := env
  cases setup with
  | mkdtempRaises m => simp [run_python_code, pyBuildSucceeds]
  | writeRaises m => simp [run_python_code, pyBuildSucceeds]
  | ok =>
    rcases hb : execute_command bb with ⟨p, tb⟩
    cases tb with
    | true => simp [run_python_code, pyBuildSucceeds, hb]
    | false =>
      by_cases hrc : p.returncode = 0
      · rcases hr : execute_command rb with ⟨q, tq⟩
        cases tq <;> simp [run_python_code, pyBuildSucceeds, hb, hr, hrc]
      · simp [run_python_code, pyBuildSucceeds, hb, hrc]

theorem go_error_none_iff (a : GoArgs) (env : GoEnv) :
    (run_go_code a env).1.error = none ↔ goBuildSucceeds env := by
  obtain ⟨id, dir, setup, bb, rb, rmib, rmf⟩ := env
  cases setup with
  | mkdtempRaises m => simp [run_go_code, goBuildSucceeds]
  | writeRaises m => simp [run_go_code, goBuildSucceeds]
  | ok =>
    rcases hb : execute_command_for_go bb with ⟨p, tb⟩
    cases tb with
    | true => simp [run_go_code, goBuildSucceeds, hb]
    | false =>
      by_cases hrc : p.returncode = 0
      · rcases hr : execute_command_for_go rb with ⟨q, tq⟩
        cases tq <;> simp [run_go_code, goBuildSucceeds, hb, hr, hrc]
      · simp [run_go_code, goBuildSucceeds, hb, hrc]

theorem py_trace_mkdtemp (a : PyArgs) (env : PyEnv)
    (h : env.setup = SetupOutcome.ok) :
    Event.mkdtemp env.tempDirName ∈ (run_python_code a env).2 := by
  obtain ⟨id, dir, setup, bb, rb, rmib, rmf⟩ := env
  cases h
  rcases hb : execute_command bb with ⟨p, tb⟩
  cases tb with
  | true => simp [run_python_code, hb, py_stage_events]
  | false =>
    by_cases hrc : p.returncode = 0 <;>
      simp [run_python_code, hb, hrc, py_stage_events]

theorem py_trace_build_event (a : PyArgs) (env : PyEnv)
    (h : env.setup = SetupOutcome.ok) :
    Event.execCmd (py_build_command env) (some 300) ∈ (run_python_code a env).2 := by
  obtain ⟨id, dir, setup, bb, rb, rmib, rmf⟩ := env
  cases h
  rcases hb : execute_command bb with ⟨p, tb⟩
  cases tb with
  | true => simp [run_python_code, hb]
  | false =>
    by_cases hrc : p.returncode = 0 <;> simp [run_python_code, hb, hrc]

theorem py_trace_run_event (a : PyArgs) (env : PyEnv)
    (h : pyBuildSucceeds env) :
    Event.execCmd (py_run_command a env) (some a.timeout) ∈
      (run_python_code a env).2 := by
  obtain ⟨id, dir, setup, bb, rb, rmib, rmf⟩ := env
  obtain ⟨hs, hb2, hb0⟩ := h
  cases hs
  rcases hb : execute_command bb with ⟨p, tb⟩
  rw [hb] at hb2 hb0
  simp only at hb2 hb0
  cases hb2
  simp [run_python_code, hb, hb0]

theorem go_trace_mkdtemp (a : GoArgs) (env : GoEnv)
    (h : env.setup = SetupOutcome.ok) :
    Event.mkdtemp env.tempDirName ∈ (run_go_code a env).2 := by
  obtain ⟨id, dir, setup, bb, rb, rmib, rmf⟩ := env
  cases h
  rcases hb : execute_command_for_go bb with ⟨p, tb⟩
  cases tb with
  | true => simp [run_go_code, hb, go_stage_events]
  | false =>
    by_cases hrc : p.returncode = 0 <;>
      simp [run_go_code, hb, hrc, go_stage_events]

theorem go_trace_build_event (a : GoArgs) (env : GoEnv)
    (h : env.setup = SetupOutcome.ok) :
    Event.execCmd (go_build_command env) (some 300) ∈ (run_go_code a env).2 := by
  obtain ⟨id, dir, setup, bb, rb, rmib, rmf⟩ := env
  cases h
  rcases hb : execute_command_for_go bb with ⟨p, tb⟩
  cases tb with
  | true => simp [run_go_code, hb]
  | false =>
    by_cases hrc : p.returncode = 0 <;> simp [run_go_code, hb, hrc]

theorem go_trace_run_event (a : GoArgs) (env : GoEnv)
    (h : goBuildSucceeds env) :
    Event.execCmd (go_run_command a env) (some a.timeout) ∈
      (run_go_code a env).2 := by
  obtain ⟨id, dir, setup, bb, rb, rmib, rmf⟩ := env
  obtain ⟨hs, hb2, hb0⟩ := h
  cases hs
  rcases hb : execute_command_for_go bb with ⟨p, tb⟩
  rw [hb] at hb2 hb0
  simp only at hb2 hb0
  cases hb2
  simp [run_go_code, hb, hb0]

theorem cpp_trace_mkdtemp (a : CppArgs) (env : CppEnv)
    (hc : a.compiler ∈ (["g++", "clang++"] : List String))
    (h : env.setup = SetupOutcome.ok) :
    Event.mkdtemp env.tempDirName ∈ (run_cpp_code a env).2 := by
  obtain ⟨dir, setup, cb, eb, rmf⟩ := env
  have hg : a.compiler = "g++" ∨ a.compiler = "clang++" := by simpa using hc
  cases h
  cases cb with
  | completes rc out err =>
    by_cases hrc : rc = 0
    · rcases hg with hg | hg <;> cases eb <;> cases rmf <;>
        simp [run_cpp_code, hg, hrc, cpp_finally]
    · rcases hg with hg | hg <;> cases rmf <;>
        simp [run_cpp_code, hg, hrc, cpp_finally]
  | timesOut =>
    rcases hg with hg | hg <;> cases rmf <;> simp [run_cpp_code, hg, cpp_finally]
  | dockerNotFound =>
    rcases hg with hg | hg <;> cases rmf <;> simp [run_cpp_code, hg, cpp_finally]
  | raises en em =>
    rcases hg with hg | hg <;> cases rmf <;> simp [run_cpp_code, hg, cpp_finally]

theorem cpp_trace_compile_event (a : CppArgs) (env : CppEnv)
    (hc : a.compiler ∈ (["g++", "clang++"] : List String))
    (h : env.setup = SetupOutcome.ok) :
    Event.execCmd (cpp_compile_command a env) (some a.compile_timeout) ∈
      (run_cpp_code a env).2 := by
  obtain ⟨dir, setup, cb, eb, rmf⟩ := env
  have hg : a.compiler = "g++" ∨ a.compiler = "clang++" := by simpa using hc
  cases h
  cases cb with
  | completes rc out err =>
    by_cases hrc : rc = 0
    · rcases hg with hg | hg <;> cases eb <;> cases rmf <;>
        simp [run_cpp_code, hg, hrc, cpp_finally, cpp_compile_command]
    · rcases hg with hg | hg <;> cases rmf <;>
        simp [run_cpp_code, hg, hrc, cpp_finally, cpp_compile_command]
  | timesOut =>
    rcases hg with hg | hg <;> cases rmf <;>
      simp [run_cpp_code, hg, cpp_finally, cpp_compile_command]
  | dockerNotFound =>
    rcases hg with hg | hg <;> cases rmf <;>
      simp [run_cpp_code, hg, cpp_finally, cpp_compile_command]
  | raises en em =>
    rcases hg with hg | hg <;> cases rmf <;>
      simp [run_cpp_code, hg, cpp_finally, cpp_compile_command]

theorem cpp_trace_exec_event (a : CppArgs) (env : CppEnv)
    (hc : a.compiler ∈ (["g++", "clang++"] : List String))
    (h : env.setup = SetupOutcome.ok)
    (h0 : cppCompileSucceeded env.compileBehavior) :
    Event.execCmd (cpp_execute_command env) (some a.exec_timeout) ∈
      (run_cpp_code a env).2 := by
  obtain ⟨dir, setup, cb, eb, rmf⟩ := env
  have hg : a.compiler = "g++" ∨ a.compiler = "clang++" := by simpa using hc
  cases h
  cases cb with
  | completes rc out err =>
    have hrc : rc = 0 := h0
    rcases hg with hg | hg <;> cases eb <;> cases rmf <;>
      simp [run_cpp_code, hg, hrc, cpp_finally, cpp_execute_command]
  | timesOut => exact absurd h0 (by simp [cppCompileSucceeded])
  | dockerNotFound => exact absurd h0 (by simp [cppCompileSucceeded])
  | raises en em => exact absurd h0 (by simp [cppCompileSucceeded])

theorem execute_command_timesOut_eq (pout perr : Option String) :
    execute_command (ProcBehavior.timesOut pout perr) =
      (⟨-1, falsyOr pout "", falsyOr perr "Execution timed out."⟩, true) := rfl

theorem execute_command_for_go_timesOut_eq (pout perr : Option String) :
    execute_command_for_go (ProcBehavior.timesOut pout perr) =
      (⟨-1, falsyOr pout "", falsyOr perr "Execution timed out."⟩, true) := rfl

theorem py_run_timeout_result (a : PyArgs) (env : PyEnv)
    (h : pyBuildSucceeds env)
    (ht : (execute_command env.runBehavior).2 = true) :
    (run_python_code a env).1.timed_out = true ∧
    (run_python_code a env).1.exit_code = 137 := by
  obtain ⟨id, dir, setup, bb, rb, rmib, rmf⟩ := env
  obtain ⟨hs, hb2, hb0⟩ := h
  cases hs
  rcases hb : execute_command bb with ⟨p, tb⟩
  rw [hb] at hb2 hb0
  simp only at hb2 hb0
  cases hb2
  cases rb with
  | completes rc out err => simp [execute_command] at ht
  | timesOut pout perr =>
    simp [run_python_code, hb, hb0, execute_command_timesOut_eq]
  | notFound fn => simp [execute_command] at ht
  | raises m => simp [execute_command] at ht

theorem go_run_timeout_result (a : GoArgs) (env : GoEnv)
    (h : goBuildSucceeds env)
    (ht : (execute_command_for_go env.runBehavior).2 = true) :
    (run_go_code a env).1.timed_out = true ∧
    (run_go_code a env).1.exit_code = 137 := by
  obtain ⟨id, dir, setup, bb, rb, rmib, rmf⟩ := env
  obtain ⟨hs, hb2, hb0⟩ := h
  cases hs
  rcases hb : execute_command_for_go bb with ⟨p, tb⟩
  rw [hb] at hb2 hb0
  simp only at hb2 hb0
  cases hb2
  cases rb with
  | completes rc out err => simp [execute_command_for_go, execute_command] at ht
  | timesOut pout perr =>
    simp [run_go_code, hb, hb0, execute_command_for_go_timesOut_eq]
  | notFound fn => simp [execute_command_for_go, execute_command] at ht
  | raises m => simp [execute_command_for_go, execute_command] at ht

theorem cpp_exec_timeout_result (a : CppArgs) (env : CppEnv)
    (hc : a.compiler ∈ (["g++", "clang++"] : List String))
    (hs : env.setup = SetupOutcome.ok)
    (h0 : cppCompileSucceeded env.compileBehavior)
    (ht : env.execBehavior = CppProcOutcome.timesOut)
    (hr : env.rmtreeFails = none) :
    execTimeoutFields (run_cpp_code a env).1 = some (true, some (-1)) := by
  obtain ⟨dir, setup, cb, eb, rmf⟩ := env
  have hg : a.compiler = "g++" ∨ a.compiler = "clang++" := by simpa using hc
  cases hs
  cases rmf with
  | some m => simp at hr
  | none =>
    cases cb with
    | completes rc out err =>
      have hrc : rc = 0 := h0
      cases eb with
      | timesOut =>
        rcases hg with hg | hg <;>
          simp [run_cpp_code, hg, hrc, cpp_finally, execTimeoutFields]
      | completes x y z => simp at ht
      | dockerNotFound => simp at ht
      | raises x y => simp at ht
    | timesOut => exact h0.elim
    | dockerNotFound => exact h0.elim
    | raises x y => exact h0.elim

/-! ### Claims -/

/-- C1: For every call to `run_python_code` or `run_go_code`, the top-level
`error` field of the returned record is `none` exactly when the
infrastructure succeeded (staging did not raise and the Docker image build
neither timed out nor exited nonzero).  In particular a nonzero exit code or
a timeout of the run phase — a user-code failure — leaves `error` null, and
`error` is set only on build-pipeline failure, build timeout, or an
unexpected exception inside the runner. -/
theorem c1_error_only_on_infrastructure (pa : PyArgs) (penv : PyEnv)
    (ga : GoArgs) (genv : GoEnv) :
    ((run_python_code pa penv).1.error = none ↔ pyBuildSucceeds penv) ∧
    ((run_go_code ga genv).1.error = none ↔ goBuildSucceeds genv) :=
  ⟨py_error_none_iff pa penv, go_error_none_iff ga genv⟩

/-- C2: For every call to `run_cpp_code` with a compiler outside
{"g++", "clang++"}, the returned record has `compilation_exit_code = -100`,
a `compilation_stderr` that names the invalid compiler value,
`compiler_used = "none"`, all execution-phase fields `none`, and the trace
is empty: no sandbox-backend invocation and no filesystem operation happens
before the return. -/
theorem c2_invalid_compiler_fast_fail (a : CppArgs) (env : CppEnv)
    (h : a.compiler ∉ (["g++", "clang++"] : List String)) :
    (run_cpp_code a env).1 = Except.ok
      { compilation_stdout := "",
        compilation_stderr := "Unsupported compiler: \x27" ++ a.compiler ++
          "\x27. Supported compilers are \x27g++\x27 and \x27clang++\x27.",
        compilation_exit_code := some (-100),
        timed_out_compilation := false,
        execution_stdout := none, execution_stderr := none,
        execution_exit_code := none, timed_out_execution := false,
        compiler_used := "none" } ∧
    (run_cpp_code a env).2 = [] := by
  refine ⟨?_, ?_⟩ <;> simp [run_cpp_code, h, initCppResults]

/-- Witness for C2 at the concrete invalid compiler "bogus". -/
theorem c2_invalid_compiler_fast_fail_witness :
    ("bogus" ∉ (["g++", "clang++"] : List String)) ∧
    ((run_cpp_code cppArgsBogus cppEnvOk).1 = Except.ok
      { compilation_stdout := "",
        compilation_stderr := "Unsupported compiler: \x27" ++
          cppArgsBogus.compiler ++
          "\x27. Supported compilers are \x27g++\x27 and \x27clang++\x27.",
        compilation_exit_code := some (-100),
        timed_out_compilation := false,
        execution_stdout := none, execution_stderr := none,
        execution_exit_code := none, timed_out_execution := false,
        compiler_used := "none" } ∧
     (run_cpp_code cppArgsBogus cppEnvOk).2 = []) :=
  ⟨by decide, c2_invalid_compiler_fast_fail cppArgsBogus cppEnvOk (by decide)⟩

/-- C7: The shared process-executor helper, on a missing executable, does not
raise: both `_execute_command` and `_execute_command_for_go` return exit
code -1, a stderr naming the missing command, and `timed_out = false`. -/
theorem c7_executor_not_found_no_raise (fn : String) :
    execute_command (ProcBehavior.notFound fn) =
      (⟨-1, "", "Command not found: " ++ fn⟩, false) ∧
    execute_command_for_go (ProcBehavior.notFound fn) =
      (⟨-1, "", "Command not found: " ++ fn⟩, false) :=
  ⟨rfl, rfl⟩

/-- C10: Two calls to `run_cpp_code` that share the same invalid compiler
string return identical results and traces, regardless of source code,
stdin, timeouts, and environment: the fast-fail path depends only on the
compiler argument. -/
theorem c10_invalid_compiler_noninterference (a1 a2 : CppArgs)
    (env1 env2 : CppEnv)
    (hc : a1.compiler = a2.compiler)
    (h : a1.compiler ∉ (["g++", "clang++"] : List String)) :
    run_cpp_code a1 env1 = run_cpp_code a2 env2 := by
  have h2 : a2.compiler ∉ (["g++", "clang++"] : List String) := hc ▸ h
  simp [run_cpp_code, h, h2, hc]

/-- Witness for C10: two calls differing in code, stdin, timeouts and
environment but sharing the invalid compiler "bogus" agree. -/
theorem c10_invalid_compiler_noninterference_witness :
    (cppArgsBogus.compiler = (⟨"other code", some "stdin", 99, 1, "bogus"⟩ : CppArgs).compiler) ∧
    (cppArgsBogus.compiler ∉ (["g++", "clang++"] : List String)) ∧
    run_cpp_code cppArgsBogus cppEnvOk =
      run_cpp_code ⟨"other code", some "stdin", 99, 1, "bogus"⟩ cppEnvCompileFail :=
  ⟨by decide, by decide,
   c10_invalid_compiler_noninterference cppArgsBogus
     ⟨"other code", some "stdin", 99, 1, "bogus"⟩ cppEnvOk cppEnvCompileFail
     (by decide) (by decide)⟩

/-- C3 counterexample: in `run_cpp_code` a failure of the workspace deletion
is NOT merely logged — `shutil.rmtree` in the `finally` block is unguarded
(cpp_runner.py lines 184-188), so at this concrete input where compilation
and execution both succeeded, the deletion failure escapes to the caller and
replaces the primary result. -/
theorem c3_cleanup_failure_raises_cex :
    (run_cpp_code cppArgs0 cppEnvRmtreeFail).1 = Except.error "disk full" := by
  decide

/-- C3 (amended): every runner attempts the recursive deletion of its
workspace on every exit path on which the directory was created; for the
Python and Go runners a deletion failure is only logged as a warning and the
primary result is unaffected, but for the C++ runner a deletion failure
propagates to the caller as an exception. -/
theorem c3_workspace_cleanup_policy (pa : PyArgs) (penv : PyEnv)
    (ga : GoArgs) (genv : GoEnv) (ca : CppArgs) (cenv : CppEnv)
    (o : Option String) (m : String)
    (hpd : penv.setup.madeDir = true) (hgd : genv.setup.madeDir = true)
    (hcc : ca.compiler ∈ (["g++", "clang++"] : List String))
    (hcd : cenv.setup.madeDir = true)
    (hcm : cenv.rmtreeFails = some m) :
    (Event.rmtree penv.tempDirName penv.rmtreeFails.isNone ∈
      (run_python_code pa penv).2) ∧
    ((run_python_code pa { penv with rmtreeFails := o }).1 =
      (run_python_code pa penv).1) ∧
    (Event.rmtree genv.tempDirName genv.rmtreeFails.isNone ∈
      (run_go_code ga genv).2) ∧
    ((run_go_code ga { genv with rmtreeFails := o }).1 =
      (run_go_code ga genv).1) ∧
    (Event.rmtree cenv.tempDirName cenv.rmtreeFails.isNone ∈
      (run_cpp_code ca cenv).2) ∧
    ((run_cpp_code ca cenv).1 = Except.error m) :=
  ⟨py_trace_rmtree pa penv hpd, py_result_ignores_rmtree pa penv o,
   go_trace_rmtree ga genv hgd, go_result_ignores_rmtree ga genv o,
   cpp_trace_rmtree ca cenv hcc hcd,
   cpp_rmtree_failure_raises ca cenv m hcc hcd hcm⟩

/-- Witness for the amended C3 at concrete inputs. -/
theorem c3_workspace_cleanup_policy_witness :
    (pyEnvRunFail.setup.madeDir = true) ∧
    (goEnvRunFail.setup.madeDir = true) ∧
    (cppArgs0.compiler ∈ (["g++", "clang++"] : List String)) ∧
    (cppEnvRmtreeFail.setup.madeDir = true) ∧
    (cppEnvRmtreeFail.rmtreeFails = some "disk full") ∧
    ((Event.rmtree pyEnvRunFail.tempDirName pyEnvRunFail.rmtreeFails.isNone ∈
        (run_python_code pyArgs0 pyEnvRunFail).2) ∧
      ((run_python_code pyArgs0 { pyEnvRunFail with rmtreeFails := some "busy" }).1 =
        (run_python_code pyArgs0 pyEnvRunFail).1) ∧
      (Event.rmtree goEnvRunFail.tempDirName goEnvRunFail.rmtreeFails.isNone ∈
        (run_go_code goArgs0 goEnvRunFail).2) ∧
      ((run_go_code goArgs0 { goEnvRunFail with rmtreeFails := some "busy" }).1 =
        (run_go_code goArgs0 goEnvRunFail).1) ∧
      (Event.rmtree cppEnvRmtreeFail.tempDirName cppEnvRmtreeFail.rmtreeFails.isNone ∈
        (run_cpp_code cppArgs0 cppEnvRmtreeFail).2) ∧
      ((run_cpp_code cppArgs0 cppEnvRmtreeFail).1 = Except.error "disk full")) :=
  ⟨by decide, by decide, by decide, by decide, by decide,
   c3_workspace_cleanup_policy pyArgs0 pyEnvRunFail goArgs0 goEnvRunFail
     cppArgs0 cppEnvRmtreeFail (some "busy") "disk full"
     (by decide) (by decide) (by decide) (by decide) (by decide)⟩

/-- C4 counterexample: on an execution timeout the C++ runner reports
`execution_exit_code = -1`, not the normalized terminated code 137 claimed
for every runner (cpp_runner.py lines 167-171 set -1 and never normalize). -/
theorem c4_cpp_timeout_exit_code_cex :
    execTimeoutFields (run_cpp_code cppArgs0 cppEnvExecTimeout).1 =
      some (true, some (-1)) ∧
    (some (-1 : Int) ≠ some (137 : Int)) := by
  refine ⟨by decide, by decide⟩

/-- C4 (amended): on a run-phase timeout every runner reports the timeout
flag and a nonzero exit code, but only the Python and Go runners normalize
the exit code to 137 (their underlying timed-out exit code is always the
sentinel -1, so normalization always applies); the C++ runner reports
`timed_out_execution = true` with `execution_exit_code = -1` and performs no
normalization.  In no runner is the reported exit code 0 on a timeout. -/
theorem c4_run_timeout_normalization (pa : PyArgs) (penv : PyEnv)
    (ga : GoArgs) (genv : GoEnv) (ca : CppArgs) (cenv : CppEnv)
    (hpb : pyBuildSucceeds penv)
    (hpt : (execute_command penv.runBehavior).2 = true)
    (hgb : goBuildSucceeds genv)
    (hgt : (execute_command_for_go genv.runBehavior).2 = true)
    (hcc : ca.compiler ∈ (["g++", "clang++"] : List String))
    (hcs : cenv.setup = SetupOutcome.ok)
    (hc0 : cppCompileSucceeded cenv.compileBehavior)
    (hct : cenv.execBehavior = CppProcOutcome.timesOut)
    (hcr : cenv.rmtreeFails = none) :
    ((run_python_code pa penv).1.timed_out = true ∧
      (run_python_code pa penv).1.exit_code = 137) ∧
    ((run_go_code ga genv).1.timed_out = true ∧
      (run_go_code ga genv).1.exit_code = 137) ∧
    execTimeoutFields (run_cpp_code ca cenv).1 = some (true, some (-1)) :=
  ⟨py_run_timeout_result pa penv hpb hpt,
   go_run_timeout_result ga genv hgb hgt,
   cpp_exec_timeout_result ca cenv hcc hcs hc0 hct hcr⟩

/-- Witness for the amended C4 at concrete timed-out runs. -/
theorem c4_run_timeout_normalization_witness :
    pyBuildSucceeds pyEnvRunTimeout ∧
    ((execute_command pyEnvRunTimeout.runBehavior).2 = true) ∧
    goBuildSucceeds goEnvRunTimeout ∧
    ((execute_command_for_go goEnvRunTimeout.runBehavior).2 = true) ∧
    (cppArgs0.compiler ∈ (["g++", "clang++"] : List String)) ∧
    (cppEnvExecTimeout.setup = SetupOutcome.ok) ∧
    cppCompileSucceeded cppEnvExecTimeout.compileBehavior ∧
    (cppEnvExecTimeout.execBehavior = CppProcOutcome.timesOut) ∧
    (cppEnvExecTimeout.rmtreeFails = none) ∧
    (((run_python_code pyArgs0 pyEnvRunTimeout).1.timed_out = true ∧
       (run_python_code pyArgs0 pyEnvRunTimeout).1.exit_code = 137) ∧
     ((run_go_code goArgs0 goEnvRunTimeout).1.timed_out = true ∧
       (run_go_code goArgs0 goEnvRunTimeout).1.exit_code = 137) ∧
     execTimeoutFields (run_cpp_code cppArgs0 cppEnvExecTimeout).1 =
       some (true, some (-1))) :=
  ⟨by decide, by decide, by decide, by decide, by decide, by decide,
   rfl, by decide, by decide,
   c4_run_timeout_normalization pyArgs0 pyEnvRunTimeout goArgs0 goEnvRunTimeout
     cppArgs0 cppEnvExecTimeout (by decide) (by decide) (by decide) (by decide)
     (by decide) (by decide) rfl (by decide) (by decide)⟩

/-- C5: whenever C++ compilation exits nonzero, times out, or raises, the
execution phase is never attempted — the trace holds exactly one
sandbox-backend invocation (the compile) — and the execution-phase fields of
the returned record stay `none` (never defaulted to zero or ""). -/
theorem c5_compile_failure_skips_execution (a : CppArgs) (env : CppEnv)
    (hc : a.compiler ∈ (["g++", "clang++"] : List String))
    (hs : env.setup = SetupOutcome.ok)
    (hf : cppCompileFailed env.compileBehavior)
    (hr : env.rmtreeFails = none) :
    ((run_cpp_code a env).2.filter isExecEvent).length = 1 ∧
    execPhaseFields (run_cpp_code a env).1 = some (none, none, none) := by
  obtain ⟨dir, setup, cb, eb, rmf⟩ := env
  have hg : a.compiler = "g++" ∨ a.compiler = "clang++" := by simpa using hc
  cases hs
  cases rmf with
  | some m => simp at hr
  | none =>
    cases cb with
    | completes rc out err =>
      have hrc : rc ≠ 0 := hf
      rcases hg with hg | hg <;>
        simp [run_cpp_code, hg, hrc, cpp_finally, execPhaseFields,
          isExecEvent, initCppResults]
    | timesOut =>
      rcases hg with hg | hg <;>
        simp [run_cpp_code, hg, cpp_finally, execPhaseFields,
          isExecEvent, initCppResults]
    | dockerNotFound =>
      rcases hg with hg | hg <;>
        simp [run_cpp_code, hg, cpp_finally, execPhaseFields,
          isExecEvent, initCppResults]
    | raises en em =>
      rcases hg with hg | hg <;>
        simp [run_cpp_code, hg, cpp_finally, execPhaseFields,
          isExecEvent, initCppResults]

/-- Witness for C5 at a concrete failing compilation. -/
theorem c5_compile_failure_skips_execution_witness :
    (cppArgs0.compiler ∈ (["g++", "clang++"] : List String)) ∧
    (cppEnvCompileFail.setup = SetupOutcome.ok) ∧
    cppCompileFailed cppEnvCompileFail.compileBehavior ∧
    (cppEnvCompileFail.rmtreeFails = none) ∧
    (((run_cpp_code cppArgs0 cppEnvCompileFail).2.filter isExecEvent).length = 1 ∧
      execPhaseFields (run_cpp_code cppArgs0 cppEnvCompileFail).1 =
        some (none, none, none)) :=
  ⟨by decide, by decide, (by decide : (1 : Int) ≠ 0), by decide,
   c5_compile_failure_skips_execution cppArgs0 cppEnvCompileFail
     (by decide) (by decide) (by decide : (1 : Int) ≠ 0) (by decide)⟩

/-- C6 counterexample: empty source code is not rejected early — at this
concrete input `run_python_code ""` creates the workspace, invokes the
Docker build, and returns a normal successful record (`error = none`,
`exit_code = 0`), so no early deterministic failure happens before workspace
creation or sandbox invocation.  (The repository's own test
`test_cpp_runner._run_empty_code_string` likewise expects empty code to
reach the compiler.) -/
theorem c6_empty_code_not_rejected_cex :
    (Event.mkdtemp pyEnvOk.tempDirName ∈
      (run_python_code pyArgsEmpty pyEnvOk).2) ∧
    (Event.execCmd (py_build_command pyEnvOk) (some 300) ∈
      (run_python_code pyArgsEmpty pyEnvOk).2) ∧
    ((run_python_code pyArgsEmpty pyEnvOk).1.error = none) ∧
    ((run_python_code pyArgsEmpty pyEnvOk).1.exit_code = 0) := by
  refine ⟨by decide, by decide, by decide, by decide⟩

/-- C6 (amended): no runner validates `source_code` for emptiness.  A call
with empty source code behaves like any other call: the workspace is
created and the sandbox backend's build/compile phase is invoked, and any
failure surfaces through the ordinary phase results rather than an early
deterministic rejection. -/
theorem c6_empty_code_staged_normally (pa : PyArgs) (penv : PyEnv)
    (ga : GoArgs) (genv : GoEnv) (ca : CppArgs) (cenv : CppEnv)
    ( _hpe : pa.code = "") (hps : penv.setup = SetupOutcome.ok)
    ( _hge : ga.code = "") (hgs : genv.setup = SetupOutcome.ok)
    ( _hce : ca.cpp_code = "")
    (hcc : ca.compiler ∈ (["g++", "clang++"] : List String))
    (hcs : cenv.setup = SetupOutcome.ok) :
    (Event.mkdtemp penv.tempDirName ∈ (run_python_code pa penv).2) ∧
    (Event.execCmd (py_build_command penv) (some 300) ∈
      (run_python_code pa penv).2) ∧
    (Event.mkdtemp genv.tempDirName ∈ (run_go_code ga genv).2) ∧
    (Event.execCmd (go_build_command genv) (some 300) ∈
      (run_go_code ga genv).2) ∧
    (Event.mkdtemp cenv.tempDirName ∈ (run_cpp_code ca cenv).2) ∧
    (Event.execCmd (cpp_compile_command ca cenv) (some ca.compile_timeout) ∈
      (run_cpp_code ca cenv).2) :=
  ⟨py_trace_mkdtemp pa penv hps, py_trace_build_event pa penv hps,
   go_trace_mkdtemp ga genv hgs, go_trace_build_event ga genv hgs,
   cpp_trace_mkdtemp ca cenv hcc hcs, cpp_trace_compile_event ca cenv hcc hcs⟩

/-- Witness for the amended C6 at concrete empty-source calls. -/
theorem c6_empty_code_staged_normally_witness :
    (pyArgsEmpty.code = "") ∧ (pyEnvOk.setup = SetupOutcome.ok) ∧
    (goArgsEmpty.code = "") ∧ (goEnvOk.setup = SetupOutcome.ok) ∧
    (cppArgsEmpty.cpp_code = "") ∧
    (cppArgsEmpty.compiler ∈ (["g++", "clang++"] : List String)) ∧
    (cppEnvOk.setup = SetupOutcome.ok) ∧
    ((Event.mkdtemp pyEnvOk.tempDirName ∈
        (run_python_code pyArgsEmpty pyEnvOk).2) ∧
      (Event.execCmd (py_build_command pyEnvOk) (some 300) ∈
        (run_python_code pyArgsEmpty pyEnvOk).2) ∧
      (Event.mkdtemp goEnvOk.tempDirName ∈ (run_go_code goArgsEmpty goEnvOk).2) ∧
      (Event.execCmd (go_build_command goEnvOk) (some 300) ∈
        (run_go_code goArgsEmpty goEnvOk).2) ∧
      (Event.mkdtemp cppEnvOk.tempDirName ∈
        (run_cpp_code cppArgsEmpty cppEnvOk).2) ∧
      (Event.execCmd (cpp_compile_command cppArgsEmpty cppEnvOk)
          (some cppArgsEmpty.compile_timeout) ∈
        (run_cpp_code cppArgsEmpty cppEnvOk).2)) :=
  ⟨by decide, by decide, by decide, by decide, by decide, by decide, by decide,
   c6_empty_code_staged_normally pyArgsEmpty pyEnvOk goArgsEmpty goEnvOk
     cppArgsEmpty cppEnvOk (by decide) (by decide) (by decide) (by decide)
     (by decide) (by decide) (by decide)⟩

/-- C8: for every call to `run_python_code` and `run_go_code`, the build
phase is invoked with the fixed 300-second timeout independent of the
caller's `timeout` parameter, and the run phase is invoked with exactly the
caller's `timeout`. -/
theorem c8_build_timeout_fixed_300 (pa : PyArgs) (penv : PyEnv)
    (ga : GoArgs) (genv : GoEnv)
    (hpb : pyBuildSucceeds penv) (hgb : goBuildSucceeds genv) :
    (Event.execCmd (py_build_command penv) (some 300) ∈
      (run_python_code pa penv).2) ∧
    (Event.execCmd (py_run_command pa penv) (some pa.timeout) ∈
      (run_python_code pa penv).2) ∧
    (Event.execCmd (go_build_command genv) (some 300) ∈
      (run_go_code ga genv).2) ∧
    (Event.execCmd (go_run_command ga genv) (some ga.timeout) ∈
      (run_go_code ga genv).2) :=
  ⟨py_trace_build_event pa penv hpb.1, py_trace_run_event pa penv hpb,
   go_trace_build_event ga genv hgb.1, go_trace_run_event ga genv hgb⟩

/-- Witness for C8 at concrete successful builds. -/
theorem c8_build_timeout_fixed_300_witness :
    pyBuildSucceeds pyEnvOk ∧ goBuildSucceeds goEnvOk ∧
    ((Event.execCmd (py_build_command pyEnvOk) (some 300) ∈
        (run_python_code pyArgs0 pyEnvOk).2) ∧
      (Event.execCmd (py_run_command pyArgs0 pyEnvOk) (some pyArgs0.timeout) ∈
        (run_python_code pyArgs0 pyEnvOk).2) ∧
      (Event.execCmd (go_build_command goEnvOk) (some 300) ∈
        (run_go_code goArgs0 goEnvOk).2) ∧
      (Event.execCmd (go_run_command goArgs0 goEnvOk) (some goArgs0.timeout) ∈
        (run_go_code goArgs0 goEnvOk).2)) :=
  ⟨by decide, by decide,
   c8_build_timeout_fixed_300 pyArgs0 pyEnvOk goArgs0 goEnvOk
     (by decide) (by decide)⟩

/-- C9: the run-phase commands of the Python and Go runners carry
`--network=none` together with the caller's `--cpus` and `--memory` limits,
and the C++ runner's compile- and execute-phase commands both carry
`--network=none`; each of these commands is the one actually passed to the
sandbox backend on the corresponding phase. -/
theorem c9_sandbox_isolation_flags (pa : PyArgs) (penv : PyEnv)
    (ga : GoArgs) (genv : GoEnv) (ca : CppArgs) (cenv : CppEnv)
    (hpb : pyBuildSucceeds penv) (hgb : goBuildSucceeds genv)
    (hcc : ca.compiler ∈ (["g++", "clang++"] : List String))
    (hcs : cenv.setup = SetupOutcome.ok)
    (hc0 : cppCompileSucceeded cenv.compileBehavior) :
    ("--network=none" ∈ py_run_command pa penv ∧
      "--cpus=" ++ pa.cpu_limit ∈ py_run_command pa penv ∧
      "--memory=" ++ pa.memory_limit ∈ py_run_command pa penv ∧
      Event.execCmd (py_run_command pa penv) (some pa.timeout) ∈
        (run_python_code pa penv).2) ∧
    ("--network=none" ∈ go_run_command ga genv ∧
      "--cpus=" ++ ga.cpu_limit ∈ go_run_command ga genv ∧
      "--memory=" ++ ga.memory_limit ∈ go_run_command ga genv ∧
      Event.execCmd (go_run_command ga genv) (some ga.timeout) ∈
        (run_go_code ga genv).2) ∧
    ("--network=none" ∈ cpp_compile_command ca cenv ∧
      "--network=none" ∈ cpp_execute_command cenv ∧
      Event.execCmd (cpp_compile_command ca cenv) (some ca.compile_timeout) ∈
        (run_cpp_code ca cenv).2 ∧
      Event.execCmd (cpp_execute_command cenv) (some ca.exec_timeout) ∈
        (run_cpp_code ca cenv).2) := by
  refine ⟨⟨?_, ?_, ?_, py_trace_run_event pa penv hpb⟩,
    ⟨?_, ?_, ?_, go_trace_run_event ga genv hgb⟩,
    ⟨?_, ?_, cpp_trace_compile_event ca cenv hcc hcs,
      cpp_trace_exec_event ca cenv hcc hcs hc0⟩⟩ <;>
    simp [py_run_command, go_run_command, cpp_compile_command,
      cpp_execute_command]

/-- Witness for C9 at concrete successful calls. -/
theorem c9_sandbox_isolation_flags_witness :
    pyBuildSucceeds pyEnvOk ∧ goBuildSucceeds goEnvOk ∧
    (cppArgs0.compiler ∈ (["g++", "clang++"] : List String)) ∧
    (cppEnvOk.setup = SetupOutcome.ok) ∧
    cppCompileSucceeded cppEnvOk.compileBehavior ∧
    (("--network=none" ∈ py_run_command pyArgs0 pyEnvOk ∧
        "--cpus=" ++ pyArgs0.cpu_limit ∈ py_run_command pyArgs0 pyEnvOk ∧
        "--memory=" ++ pyArgs0.memory_limit ∈ py_run_command pyArgs0 pyEnvOk ∧
        Event.execCmd (py_run_command pyArgs0 pyEnvOk) (some pyArgs0.timeout) ∈
          (run_python_code pyArgs0 pyEnvOk).2) ∧
      ("--network=none" ∈ go_run_command goArgs0 goEnvOk ∧
        "--cpus=" ++ goArgs0.cpu_limit ∈ go_run_command goArgs0 goEnvOk ∧
        "--memory=" ++ goArgs0.memory_limit ∈ go_run_command goArgs0 goEnvOk ∧
        Event.execCmd (go_run_command goArgs0 goEnvOk) (some goArgs0.timeout) ∈
          (run_go_code goArgs0 goEnvOk).2) ∧
      ("--network=none" ∈ cpp_compile_command cppArgs0 cppEnvOk ∧
        "--network=none" ∈ cpp_execute_command cppEnvOk ∧
        Event.execCmd (cpp_compile_command cppArgs0 cppEnvOk)
            (some cppArgs0.compile_timeout) ∈
          (run_cpp_code cppArgs0 cppEnvOk).2 ∧
        Event.execCmd (cpp_execute_command cppEnvOk) (some cppArgs0.exec_timeout) ∈
          (run_cpp_code cppArgs0 cppEnvOk).2)) :=
  ⟨by decide, by decide, by decide, by decide, rfl,
   c9_sandbox_isolation_flags pyArgs0 pyEnvOk goArgs0 goEnvOk cppArgs0 cppEnvOk
     (by decide) (by decide) (by decide) (by decide) rfl⟩

end DeepBlue
